import Mathlib

/-!
Shallow embedding of `src/egg/validate_egg_structure.py`.

The script defines a class `EggValidator` holding three string lists
(`errors`, `warnings`, `successes`) and a root path, runs eight checks that
query the filesystem (existence of paths relative to the root, text contents
of two files) and one subprocess (`cargo check --workspace`), and prints a
report whose verdict and the process exit code depend on the lists.

The filesystem and the subprocess are modelled by an environment `Env`:
`pathExists p` is the result of `(self.egg_root / p).exists()` for the
relative path string `p`, `readFile p` the text read from that path, and
`cargo` the observed outcome of the single `subprocess.run` invocation.
Each check is a pure function `Env → EggValidator → EggValidator × Bool`
returning the updated validator and the Python return value.
-/

namespace EggValidation

/-- Outcome of the `subprocess.run(["cargo", "check", "--workspace"], ...)`
call: it returns a completed process with an exit code and captured stderr,
or raises `FileNotFoundError`, `subprocess.TimeoutExpired`, or some other
exception. -/
inductive CargoResult where
  | completed (returncode : Int) (stderr : String)
  | fileNotFound
  | timeoutExpired
  | otherException (msg : String)
deriving DecidableEq

/-- The world the script observes: existence of relative paths under the
egg root, text contents of files, the cargo subprocess outcome, and whether
the root itself exists (checked by `main`). -/
structure Env where
  rootExists : Bool
  pathExists : String → Bool
  readFile : String → String
  cargo : CargoResult

/-- State of the `EggValidator` object: the three result lists initialised
empty in `__init__`. -/
structure EggValidator where
  errors : List String
  warnings : List String
  successes : List String
deriving DecidableEq

/-- Fresh validator as built by `EggValidator.__init__`. -/
def EggValidator.init : EggValidator :=
  { errors := [], warnings := [], successes := [] }

/-- Tests whether `needle` occurs at the start of `haystack`. -/
def prefixChars (needle haystack : List Char) : Bool :=
  match needle, haystack with
  | [], _ => true
  | _ :: _, [] => false
  | a :: as, b :: bs => a == b && prefixChars as bs

/-- Tests whether `needle` occurs somewhere inside `haystack`. -/
def containsChars (haystack needle : List Char) : Bool :=
  prefixChars needle haystack ||
    match haystack with
    | [] => false
    | _ :: t => containsChars t needle

/-- Python substring test `needle in haystack`. -/
def strContains (haystack needle : String) : Bool :=
  containsChars haystack.data needle.data

/-- The `required_dirs` list of `validate_structure`. -/
def required_dirs : List String :=
  ["crates/limit-core",
   "crates/limit-storage",
   "crates/limit-orchestration",
   "crates/limit-agents",
   "services/api",
   "examples",
   "tests",
   ".github/workflows"]

/-- Loop body of `validate_structure`: one directory existence check. -/
def structureStep (env : Env) (v : EggValidator) (dir_path : String) : EggValidator :=
  if env.pathExists dir_path then
    { v with successes := v.successes ++ ["✓ Directory exists: " ++ dir_path] }
  else
    { v with errors := v.errors ++ ["✗ Missing directory: " ++ dir_path] }

/-- Embeds `EggValidator.validate_structure`. -/
def validate_structure (env : Env) (v : EggValidator) : EggValidator × Bool :=
  let w := required_dirs.foldl (structureStep env) v
  (w, w.errors.length == 0)

/-- The `crates` list of `validate_crate_files`. -/
def crates : List String :=
  ["limit-core", "limit-storage", "limit-orchestration", "limit-agents"]

/-- Loop body of `validate_crate_files`: checks `Cargo.toml` and `src/lib.rs`
of one crate. -/
def crateStep (env : Env) (v : EggValidator) (crate : String) : EggValidator :=
  let v :=
    if env.pathExists ("crates/" ++ crate ++ "/Cargo.toml") then
      { v with successes := v.successes ++ ["✓ " ++ crate ++ "/Cargo.toml exists"] }
    else
      { v with errors := v.errors ++ ["✗ " ++ crate ++ "/Cargo.toml missing"] }
  if env.pathExists ("crates/" ++ crate ++ "/src/lib.rs") then
    { v with successes := v.successes ++ ["✓ " ++ crate ++ "/src/lib.rs exists"] }
  else
    { v with errors := v.errors ++ ["✗ " ++ crate ++ "/src/lib.rs missing"] }

/-- Embeds `EggValidator.validate_crate_files`. -/
def validate_crate_files (env : Env) (v : EggValidator) : EggValidator × Bool :=
  let w := crates.foldl (crateStep env) v
  (w, w.errors.length == 0)

/-- The `required_examples` list of `validate_examples`. -/
def required_examples : List String :=
  ["basic_session.rs", "agent_benchmark.rs", "federated_orchestration.rs"]

/-- Loop body of `validate_examples`: one example existence check. -/
def exampleStep (env : Env) (v : EggValidator) (exampleName : String) : EggValidator :=
  if env.pathExists ("examples/" ++ exampleName) then
    { v with successes := v.successes ++ ["✓ Example exists: " ++ exampleName] }
  else
    { v with errors := v.errors ++ ["✗ Missing example: " ++ exampleName] }

/-- Embeds `EggValidator.validate_examples`. -/
def validate_examples (env : Env) (v : EggValidator) : EggValidator × Bool :=
  let w := required_examples.foldl (exampleStep env) v
  (w, w.errors.length == 0)

/-- The `required_members` list of `validate_workspace_config`. -/
def required_members : List String :=
  ["crates/limit-core",
   "crates/limit-storage",
   "crates/limit-orchestration",
   "crates/limit-agents",
   "services/api"]

/-- Loop body of `validate_workspace_config`: one workspace-member substring
check against the root `Cargo.toml` contents. -/
def memberStep (content : String) (v : EggValidator) (member : String) : EggValidator :=
  if strContains content member then
    { v with successes := v.successes ++ ["✓ Workspace member: " ++ member] }
  else
    { v with errors := v.errors ++ ["✗ Missing workspace member: " ++ member] }

/-- Embeds `EggValidator.validate_workspace_config`. -/
def validate_workspace_config (env : Env) (v : EggValidator) : EggValidator × Bool :=
  if env.pathExists "Cargo.toml" then
    let content := env.readFile "Cargo.toml"
    let w := required_members.foldl (memberStep content) v
    (w, w.errors.length == 0)
  else
    ({ v with errors := v.errors ++ ["✗ Root Cargo.toml missing"] }, false)

/-- Embeds `EggValidator.validate_docker_config`. -/
def validate_docker_config (env : Env) (v : EggValidator) : EggValidator × Bool :=
  let v :=
    if env.pathExists "Dockerfile" then
      { v with successes := v.successes ++ ["✓ Dockerfile exists"] }
    else
      { v with warnings := v.warnings ++ ["⚠ Dockerfile missing"] }
  let v :=
    if env.pathExists "docker-compose.yml" then
      { v with successes := v.successes ++ ["✓ docker-compose.yml exists"] }
    else
      { v with warnings := v.warnings ++ ["⚠ docker-compose.yml missing"] }
  let v :=
    if env.pathExists ".dockerignore" then
      { v with successes := v.successes ++ ["✓ .dockerignore exists"] }
    else
      { v with warnings := v.warnings ++ ["⚠ .dockerignore missing"] }
  (v, true)

/-- The `required_jobs` list of `validate_ci_workflow`. -/
def required_jobs : List String :=
  ["test", "fmt", "clippy", "build"]

/-- Loop body of `validate_ci_workflow`: one job-name substring check against
the `ci.yml` contents. -/
def jobStep (content : String) (v : EggValidator) (job : String) : EggValidator :=
  if strContains content (job ++ ":") then
    { v with successes := v.successes ++ ["✓ CI job defined: " ++ job] }
  else
    { v with warnings := v.warnings ++ ["⚠ CI job missing: " ++ job] }

/-- Embeds `EggValidator.validate_ci_workflow`. -/
def validate_ci_workflow (env : Env) (v : EggValidator) : EggValidator × Bool :=
  if env.pathExists ".github/workflows/ci.yml" then
    let v := { v with successes := v.successes ++ ["✓ CI workflow exists"] }
    let content := env.readFile ".github/workflows/ci.yml"
    let w := required_jobs.foldl (jobStep content) v
    (w, w.errors.length == 0)
  else
    let w := { v with errors := v.errors ++ ["✗ CI workflow missing"] }
    (w, w.errors.length == 0)

/-- The `docs` list of `validate_documentation`. -/
def docs : List String :=
  ["README.md", "QUICK_START.md", "IMPLEMENTATION_COMPLETE.md",
   "FEDERATED_ARCHITECTURE.md"]

/-- Loop body of `validate_documentation`: one documentation existence check. -/
def docStep (env : Env) (v : EggValidator) (doc : String) : EggValidator :=
  if env.pathExists doc then
    { v with successes := v.successes ++ ["✓ Documentation: " ++ doc] }
  else
    { v with warnings := v.warnings ++ ["⚠ Missing documentation: " ++ doc] }

/-- Embeds `EggValidator.validate_documentation`. -/
def validate_documentation (env : Env) (v : EggValidator) : EggValidator × Bool :=
  let w := docs.foldl (docStep env) v
  (w, true)

/-- Embeds `EggValidator.check_cargo_build`. -/
def check_cargo_build (env : Env) (v : EggValidator) : EggValidator × Bool :=
  match env.cargo with
  | CargoResult.completed returncode stderr =>
    if returncode == 0 then
      ({ v with successes := v.successes ++ ["✓ Cargo check passed"] }, true)
    else
      ({ v with warnings :=
           v.warnings ++ ["⚠ Cargo check failed: " ++ stderr.take 200] }, false)
  | CargoResult.fileNotFound =>
    ({ v with warnings := v.warnings ++ ["⚠ Cargo not found - skipping build check"] }, true)
  | CargoResult.timeoutExpired =>
    ({ v with warnings := v.warnings ++ ["⚠ Cargo check timed out"] }, true)
  | CargoResult.otherException msg =>
    ({ v with warnings := v.warnings ++ ["⚠ Cargo check error: " ++ msg] }, true)

/-- Return value of `EggValidator.print_report`: `False` in the errors
branch, `True` in the warnings-only and clean branches. -/
def print_report (v : EggValidator) : Bool :=
  if !v.errors.isEmpty then false
  else if !v.warnings.isEmpty then true
  else true

/-- The three verdict lines `print_report` can print. -/
inductive Verdict where
  | failed
  | passedWithWarnings
  | passed
deriving DecidableEq

/-- Which verdict line `print_report` prints, branch for branch:
`VALIDATION FAILED` when `self.errors` is truthy, else
`VALIDATION PASSED WITH WARNINGS` when `self.warnings` is truthy, else
`VALIDATION PASSED`. -/
def report_verdict (v : EggValidator) : Verdict :=
  if !v.errors.isEmpty then Verdict.failed
  else if !v.warnings.isEmpty then Verdict.passedWithWarnings
  else Verdict.passed

/-- Embeds `EggValidator.run_all_validations`: runs the eight checks in
order, discarding their return values, then returns `print_report()`. -/
def run_all_validations (env : Env) (v : EggValidator) : EggValidator × Bool :=
  let v := (validate_structure env v).1
  let v := (validate_crate_files env v).1
  let v := (validate_examples env v).1
  let v := (validate_workspace_config env v).1
  let v := (validate_docker_config env v).1
  let v := (validate_ci_workflow env v).1
  let v := (validate_documentation env v).1
  let v := (check_cargo_build env v).1
  (v, print_report v)

/-- Validator state after `run_all_validations` on a fresh validator. -/
def finalState (env : Env) : EggValidator :=
  (run_all_validations env EggValidator.init).1

/-- Embeds `main`: exits 1 when the egg root does not exist, otherwise exits
0 when `run_all_validations` returned `True` and 1 when it returned `False`. -/
def mainExitCode (env : Env) : Nat :=
  if !env.rootExists then 1
  else if (run_all_validations env EggValidator.init).2 then 0 else 1

/-! ## Delta characterisation of each check

Each check only ever appends to the three lists.  The following definitions
compute, from the environment alone, exactly what each check appends, and
the lemmas prove the checks equal to "input state with deltas appended". -/

/-- Error strings appended by `validate_structure`. -/
def structureErrorsOf (env : Env) : List String :=
  required_dirs.flatMap fun d =>
    if env.pathExists d then [] else ["✗ Missing directory: " ++ d]

/-- Success strings appended by `validate_structure`. -/
def structureSuccessesOf (env : Env) : List String :=
  required_dirs.flatMap fun d =>
    if env.pathExists d then ["✓ Directory exists: " ++ d] else []

/-- Error strings appended by `validate_crate_files`. -/
def crateErrorsOf (env : Env) : List String :=
  crates.flatMap fun c =>
    (if env.pathExists ("crates/" ++ c ++ "/Cargo.toml") then []
     else ["✗ " ++ c ++ "/Cargo.toml missing"]) ++
    (if env.pathExists ("crates/" ++ c ++ "/src/lib.rs") then []
     else ["✗ " ++ c ++ "/src/lib.rs missing"])

/-- Success strings appended by `validate_crate_files`. -/
def crateSuccessesOf (env : Env) : List String :=
  crates.flatMap fun c =>
    (if env.pathExists ("crates/" ++ c ++ "/Cargo.toml") then
       ["✓ " ++ c ++ "/Cargo.toml exists"]
     else []) ++
    (if env.pathExists ("crates/" ++ c ++ "/src/lib.rs") then
       ["✓ " ++ c ++ "/src/lib.rs exists"]
     else [])

/-- Error strings appended by `validate_examples`. -/
def examplesErrorsOf (env : Env) : List String :=
  required_examples.flatMap fun e =>
    if env.pathExists ("examples/" ++ e) then [] else ["✗ Missing example: " ++ e]

/-- Success strings appended by `validate_examples`. -/
def examplesSuccessesOf (env : Env) : List String :=
  required_examples.flatMap fun e =>
    if env.pathExists ("examples/" ++ e) then ["✓ Example exists: " ++ e] else []

/-- Error strings appended by `validate_workspace_config`. -/
def workspaceErrorsOf (env : Env) : List String :=
  if env.pathExists "Cargo.toml" then
    required_members.flatMap fun m =>
      if strContains (env.readFile "Cargo.toml") m then []
      else ["✗ Missing workspace member: " ++ m]
  else ["✗ Root Cargo.toml missing"]

/-- Success strings appended by `validate_workspace_config`. -/
def workspaceSuccessesOf (env : Env) : List String :=
  if env.pathExists "Cargo.toml" then
    required_members.flatMap fun m =>
      if strContains (env.readFile "Cargo.toml") m then
        ["✓ Workspace member: " ++ m]
      else []
  else []

/-- Warning strings appended by `validate_docker_config`. -/
def dockerWarningsOf (env : Env) : List String :=
  (if env.pathExists "Dockerfile" then [] else ["⚠ Dockerfile missing"]) ++
  (if env.pathExists "docker-compose.yml" then [] else ["⚠ docker-compose.yml missing"]) ++
  (if env.pathExists ".dockerignore" then [] else ["⚠ .dockerignore missing"])

/-- Success strings appended by `validate_docker_config`. -/
def dockerSuccessesOf (env : Env) : List String :=
  (if env.pathExists "Dockerfile" then ["✓ Dockerfile exists"] else []) ++
  (if env.pathExists "docker-compose.yml" then ["✓ docker-compose.yml exists"] else []) ++
  (if env.pathExists ".dockerignore" then ["✓ .dockerignore exists"] else [])

/-- Error strings appended by `validate_ci_workflow`. -/
def ciErrorsOf (env : Env) : List String :=
  if env.pathExists ".github/workflows/ci.yml" then []
  else ["✗ CI workflow missing"]

/-- Warning strings appended by `validate_ci_workflow`. -/
def ciWarningsOf (env : Env) : List String :=
  if env.pathExists ".github/workflows/ci.yml" then
    required_jobs.flatMap fun job =>
      if strContains (env.readFile ".github/workflows/ci.yml") (job ++ ":") then []
      else ["⚠ CI job missing: " ++ job]
  else []

/-- Success strings appended by `validate_ci_workflow`. -/
def ciSuccessesOf (env : Env) : List String :=
  if env.pathExists ".github/workflows/ci.yml" then
    ["✓ CI workflow exists"] ++
      required_jobs.flatMap fun job =>
        if strContains (env.readFile ".github/workflows/ci.yml") (job ++ ":") then
          ["✓ CI job defined: " ++ job]
        else []
  else []

/-- Warning strings appended by `validate_documentation`. -/
def docsWarningsOf (env : Env) : List String :=
  docs.flatMap fun doc =>
    if env.pathExists doc then [] else ["⚠ Missing documentation: " ++ doc]

/-- Success strings appended by `validate_documentation`. -/
def docsSuccessesOf (env : Env) : List String :=
  docs.flatMap fun doc =>
    if env.pathExists doc then ["✓ Documentation: " ++ doc] else []

/-- Warning strings appended by `check_cargo_build`. -/
def cargoWarningsOf (env : Env) : List String :=
  match env.cargo with
  | CargoResult.completed returncode stderr =>
    if returncode == 0 then [] else ["⚠ Cargo check failed: " ++ stderr.take 200]
  | CargoResult.fileNotFound => ["⚠ Cargo not found - skipping build check"]
  | CargoResult.timeoutExpired => ["⚠ Cargo check timed out"]
  | CargoResult.otherException msg => ["⚠ Cargo check error: " ++ msg]

/-- Success strings appended by `check_cargo_build`. -/
def cargoSuccessesOf (env : Env) : List String :=
  match env.cargo with
  | CargoResult.completed returncode _ =>
    if returncode == 0 then ["✓ Cargo check passed"] else []
  | _ => []

/-- All error strings produced by a full run, in order. -/
def errorsOf (env : Env) : List String :=
  structureErrorsOf env ++ crateErrorsOf env ++ examplesErrorsOf env ++
    workspaceErrorsOf env ++ ciErrorsOf env

/-- All warning strings produced by a full run, in order. -/
def warningsOf (env : Env) : List String :=
  dockerWarningsOf env ++ ciWarningsOf env ++ docsWarningsOf env ++
    cargoWarningsOf env

/-- All success strings produced by a full run, in order. -/
def successesOf (env : Env) : List String :=
  structureSuccessesOf env ++ crateSuccessesOf env ++ examplesSuccessesOf env ++
    workspaceSuccessesOf env ++ dockerSuccessesOf env ++ ciSuccessesOf env ++
    docsSuccessesOf env ++ cargoSuccessesOf env

/-- The three optional auxiliary files checked by `validate_docker_config`. -/
def dockerFiles : List String :=
  ["Dockerfile", "docker-compose.yml", ".dockerignore"]

/-- Tests whether the cargo subprocess outcome is one of the failure modes of
`check_cargo_build`: non-zero exit, tool missing, timeout, or another
exception. -/
def cargoFailed : CargoResult → Bool
  | CargoResult.completed returncode _ => !(returncode == 0)
  | CargoResult.fileNotFound => true
  | CargoResult.timeoutExpired => true
  | CargoResult.otherException _ => true

/-- Tests whether the cargo subprocess completed with a non-zero exit status,
the one outcome on which `check_cargo_build` returns `False`. -/
def cargoRunFailed : CargoResult → Bool
  | CargoResult.completed returncode _ => !(returncode == 0)
  | _ => false

/-- Everything whose absence is recorded as an error is present: all required
directories, crate files, examples, the root `Cargo.toml` with all workspace
member substrings, and the CI workflow file. -/
def allRequiredPresent (env : Env) : Bool :=
  required_dirs.all env.pathExists &&
  crates.all (fun c =>
    env.pathExists ("crates/" ++ c ++ "/Cargo.toml") &&
    env.pathExists ("crates/" ++ c ++ "/src/lib.rs")) &&
  required_examples.all (fun e => env.pathExists ("examples/" ++ e)) &&
  env.pathExists "Cargo.toml" &&
  required_members.all (fun m => strContains (env.readFile "Cargo.toml") m) &&
  env.pathExists ".github/workflows/ci.yml"

/-- The lists of `v` are prefixes of the lists of `w`: `w` extends each list
of `v` by appending, never removing, reordering, or modifying entries. -/
def prefixTriple (v w : EggValidator) : Prop :=
  (∃ t, v.errors ++ t = w.errors) ∧
  (∃ t, v.warnings ++ t = w.warnings) ∧
  (∃ t, v.successes ++ t = w.successes)

/-- Root `Cargo.toml` contents listing every required workspace member. -/
def contentAllMembers : String :=
  "crates/limit-core crates/limit-storage crates/limit-orchestration crates/limit-agents services/api"

/-- Environment in which every path exists, the root `Cargo.toml` lists all
members, and cargo check passes. -/
def envAllGood : Env :=
  { rootExists := true
    pathExists := fun _ => true
    readFile := fun _ => contentAllMembers
    cargo := CargoResult.completed 0 "" }

/-- Environment identical to `envAllGood` except that the required directory
`tests` is absent. -/
def envMissingTests : Env :=
  { rootExists := true
    pathExists := fun p => !(p == "tests")
    readFile := fun _ => contentAllMembers
    cargo := CargoResult.completed 0 "" }

/-- Environment in which the cargo subprocess times out. -/
def envTimeout : Env :=
  { rootExists := true
    pathExists := fun _ => true
    readFile := fun _ => contentAllMembers
    cargo := CargoResult.timeoutExpired }

/-- Environment identical to `envAllGood` except that the optional
`Dockerfile` is absent. -/
def envNoDocker : Env :=
  { rootExists := true
    pathExists := fun p => !(p == "Dockerfile")
    readFile := fun _ => contentAllMembers
    cargo := CargoResult.completed 0 "" }

/-- Environment in which the CI workflow file is absent. -/
def envNoCi : Env :=
  { rootExists := true
    pathExists := fun p => !(p == ".github/workflows/ci.yml")
    readFile := fun _ => ""
    cargo := CargoResult.fileNotFound }

/-- Environment in which the CI workflow file exists but its contents define
no jobs. -/
def envCiNoJobs : Env :=
  { rootExists := true
    pathExists := fun _ => true
    readFile := fun _ => ""
    cargo := CargoResult.fileNotFound }

/-- Environment in which the root `Cargo.toml` is absent. -/
def envNoCargoToml : Env :=
  { rootExists := true
    pathExists := fun p => !(p == "Cargo.toml")
    readFile := fun _ => ""
    cargo := CargoResult.fileNotFound }

/-- First of two environments with identical filesystem and subprocess
observations. -/
def envDetA : Env :=
  { rootExists := true
    pathExists := fun _ => true
    readFile := fun _ => contentAllMembers
    cargo := CargoResult.completed 0 "" }

/-- Second of two environments with identical filesystem and subprocess
observations, differing from `envDetA` in the unobserved `rootExists` field. -/
def envDetB : Env :=
  { rootExists := false
    pathExists := fun _ => true
    readFile := fun _ => contentAllMembers
    cargo := CargoResult.completed 0 "" }

theorem flatMap_const_nil {α : Type} (l : List α) :
    (l.flatMap fun _ => ([] : List String)) = [] := by
  induction l with
  | nil => rfl
  | cons a t ih => simp [List.flatMap_cons, ih]

theorem foldl_delta {α : Type} (f : EggValidator → α → EggValidator)
    (E W S : α → List String)
    (hf : ∀ (v : EggValidator) (x : α),
      f v x = ⟨v.errors ++ E x, v.warnings ++ W x, v.successes ++ S x⟩) :
    ∀ (xs : List α) (v : EggValidator),
      xs.foldl f v =
        ⟨v.errors ++ xs.flatMap E, v.warnings ++ xs.flatMap W,
         v.successes ++ xs.flatMap S⟩ := by
  intro xs
  induction xs with
  | nil => intro v; simp
  | cons x t ih =>
    intro v
    rw [List.foldl_cons, ih, hf]
    simp [List.flatMap_cons, List.append_assoc]

theorem validate_structure_delta (env : Env) (v : EggValidator) :
    (validate_structure env v).1 =
      ⟨v.errors ++ structureErrorsOf env, v.warnings,
       v.successes ++ structureSuccessesOf env⟩ := by
  have hf : ∀ (w : EggValidator) (d : String),
      structureStep env w d =
        ⟨w.errors ++ (if env.pathExists d then [] else ["✗ Missing directory: " ++ d]),
         w.warnings ++ (fun _ => ([] : List String)) d,
         w.successes ++ (if env.pathExists d then ["✓ Directory exists: " ++ d] else [])⟩ := by
    intro w d
    unfold structureStep
    cases hd : env.pathExists d <;> simp [hd]
  show (required_dirs.foldl (structureStep env) v) = _
  rw [foldl_delta (structureStep env) _ _ _ hf required_dirs v]
  simp [structureErrorsOf, structureSuccessesOf, flatMap_const_nil]

theorem validate_crate_files_delta (env : Env) (v : EggValidator) :
    (validate_crate_files env v).1 =
      ⟨v.errors ++ crateErrorsOf env, v.warnings,
       v.successes ++ crateSuccessesOf env⟩ := by
  have hf : ∀ (w : EggValidator) (c : String),
      crateStep env w c =
        ⟨w.errors ++
          ((if env.pathExists ("crates/" ++ c ++ "/Cargo.toml") then []
            else ["✗ " ++ c ++ "/Cargo.toml missing"]) ++
           (if env.pathExists ("crates/" ++ c ++ "/src/lib.rs") then []
            else ["✗ " ++ c ++ "/src/lib.rs missing"])),
         w.warnings ++ (fun _ => ([] : List String)) c,
         w.successes ++
          ((if env.pathExists ("crates/" ++ c ++ "/Cargo.toml") then
              ["✓ " ++ c ++ "/Cargo.toml exists"]
            else []) ++
           (if env.pathExists ("crates/" ++ c ++ "/src/lib.rs") then
              ["✓ " ++ c ++ "/src/lib.rs exists"]
            else []))⟩ := by
    intro w c
    unfold crateStep
    cases h1 : env.pathExists ("crates/" ++ c ++ "/Cargo.toml") <;>
      cases h2 : env.pathExists ("crates/" ++ c ++ "/src/lib.rs") <;>
        simp [h1, h2, List.append_assoc]
  show (crates.foldl (crateStep env) v) = _
  rw [foldl_delta (crateStep env) _ _ _ hf crates v]
  simp [crateErrorsOf, crateSuccessesOf, flatMap_const_nil]

theorem validate_examples_delta (env : Env) (v : EggValidator) :
    (validate_examples env v).1 =
      ⟨v.errors ++ examplesErrorsOf env, v.warnings,
       v.successes ++ examplesSuccessesOf env⟩ := by
  have hf : ∀ (w : EggValidator) (e : String),
      exampleStep env w e =
        ⟨w.errors ++
          (if env.pathExists ("examples/" ++ e) then []
           else ["✗ Missing example: " ++ e]),
         w.warnings ++ (fun _ => ([] : List String)) e,
         w.successes ++
          (if env.pathExists ("examples/" ++ e) then ["✓ Example exists: " ++ e]
           else [])⟩ := by
    intro w e
    unfold exampleStep
    cases hd : env.pathExists ("examples/" ++ e) <;> simp [hd]
  show (required_examples.foldl (exampleStep env) v) = _
  rw [foldl_delta (exampleStep env) _ _ _ hf required_examples v]
  simp [examplesErrorsOf, examplesSuccessesOf, flatMap_const_nil]

theorem validate_workspace_config_delta (env : Env) (v : EggValidator) :
    (validate_workspace_config env v).1 =
      ⟨v.errors ++ workspaceErrorsOf env, v.warnings,
       v.successes ++ workspaceSuccessesOf env⟩ := by
  cases hc : env.pathExists "Cargo.toml" with
  | false =>
    simp [validate_workspace_config, hc, workspaceErrorsOf, workspaceSuccessesOf]
  | true =>
    have hf : ∀ (w : EggValidator) (m : String),
        memberStep (env.readFile "Cargo.toml") w m =
          ⟨w.errors ++
            (if strContains (env.readFile "Cargo.toml") m then []
             else ["✗ Missing workspace member: " ++ m]),
           w.warnings ++ (fun _ => ([] : List String)) m,
           w.successes ++
            (if strContains (env.readFile "Cargo.toml") m then
               ["✓ Workspace member: " ++ m]
             else [])⟩ := by
      intro w m
      unfold memberStep
      cases hm : strContains (env.readFile "Cargo.toml") m <;> simp [hm]
    simp only [validate_workspace_config, hc, if_true]
    rw [foldl_delta (memberStep (env.readFile "Cargo.toml")) _ _ _ hf
          required_members v]
    simp [workspaceErrorsOf, workspaceSuccessesOf, hc, flatMap_const_nil]

theorem validate_docker_config_delta (env : Env) (v : EggValidator) :
    (validate_docker_config env v).1 =
      ⟨v.errors, v.warnings ++ dockerWarningsOf env,
       v.successes ++ dockerSuccessesOf env⟩ := by
  unfold validate_docker_config
  cases h1 : env.pathExists "Dockerfile" <;>
    cases h2 : env.pathExists "docker-compose.yml" <;>
      cases h3 : env.pathExists ".dockerignore" <;>
        simp [h1, h2, h3, dockerWarningsOf, dockerSuccessesOf, List.append_assoc]

theorem validate_ci_workflow_delta (env : Env) (v : EggValidator) :
    (validate_ci_workflow env v).1 =
      ⟨v.errors ++ ciErrorsOf env, v.warnings ++ ciWarningsOf env,
       v.successes ++ ciSuccessesOf env⟩ := by
  cases hc : env.pathExists ".github/workflows/ci.yml" with
  | false =>
    simp [validate_ci_workflow, hc, ciErrorsOf, ciWarningsOf, ciSuccessesOf]
  | true =>
    have hf : ∀ (w : EggValidator) (job : String),
        jobStep (env.readFile ".github/workflows/ci.yml") w job =
          ⟨w.errors ++ (fun _ => ([] : List String)) job,
           w.warnings ++
            (if strContains (env.readFile ".github/workflows/ci.yml") (job ++ ":") then []
             else ["⚠ CI job missing: " ++ job]),
           w.successes ++
            (if strContains (env.readFile ".github/workflows/ci.yml") (job ++ ":") then
               ["✓ CI job defined: " ++ job]
             else [])⟩ := by
      intro w job
      unfold jobStep
      cases hm : strContains (env.readFile ".github/workflows/ci.yml") (job ++ ":") <;>
        simp [hm]
    simp only [validate_ci_workflow, hc, if_true]
    rw [foldl_delta (jobStep (env.readFile ".github/workflows/ci.yml")) _ _ _ hf
          required_jobs
          { v with successes := v.successes ++ ["✓ CI workflow exists"] }]
    simp [ciErrorsOf, ciWarningsOf, ciSuccessesOf, hc, flatMap_const_nil,
      List.append_assoc]

theorem validate_documentation_delta (env : Env) (v : EggValidator) :
    (validate_documentation env v).1 =
      ⟨v.errors, v.warnings ++ docsWarningsOf env,
       v.successes ++ docsSuccessesOf env⟩ := by
  have hf : ∀ (w : EggValidator) (doc : String),
      docStep env w doc =
        ⟨w.errors ++ (fun _ => ([] : List String)) doc,
         w.warnings ++
          (if env.pathExists doc then [] else ["⚠ Missing documentation: " ++ doc]),
         w.successes ++
          (if env.pathExists doc then ["✓ Documentation: " ++ doc] else [])⟩ := by
    intro w doc
    unfold docStep
    cases hd : env.pathExists doc <;> simp [hd]
  show (docs.foldl (docStep env) v) = _
  rw [foldl_delta (docStep env) _ _ _ hf docs v]
  simp [docsWarningsOf, docsSuccessesOf, flatMap_const_nil]

theorem check_cargo_build_delta (env : Env) (v : EggValidator) :
    (check_cargo_build env v).1 =
      ⟨v.errors, v.warnings ++ cargoWarningsOf env,
       v.successes ++ cargoSuccessesOf env⟩ := by
  unfold check_cargo_build cargoWarningsOf cargoSuccessesOf
  cases env.cargo with
  | completed rc stderr => cases h : rc == 0 <;> simp [h]
  | fileNotFound => simp
  | timeoutExpired => simp
  | otherException msg => simp

theorem run_all_snd (env : Env) (v : EggValidator) :
    (run_all_validations env v).2 = print_report ((run_all_validations env v).1) :=
  rfl

theorem run_all_delta (env : Env) (v : EggValidator) :
    (run_all_validations env v).1 =
      ⟨v.errors ++ errorsOf env, v.warnings ++ warningsOf env,
       v.successes ++ successesOf env⟩ := by
  show ((check_cargo_build env (validate_documentation env (validate_ci_workflow env
    (validate_docker_config env (validate_workspace_config env (validate_examples env
      (validate_crate_files env (validate_structure env v).1).1).1).1).1).1).1).1) = _
  rw [validate_structure_delta, validate_crate_files_delta, validate_examples_delta,
    validate_workspace_config_delta, validate_docker_config_delta,
    validate_ci_workflow_delta, validate_documentation_delta, check_cargo_build_delta]
  simp [errorsOf, warningsOf, successesOf, List.append_assoc]

theorem finalState_eq (env : Env) :
    finalState env = ⟨errorsOf env, warningsOf env, successesOf env⟩ := by
  show (run_all_validations env EggValidator.init).1 = _
  rw [run_all_delta]
  rfl

/-! ## General helper lemmas -/

theorem length_beq_isEmpty (l : List String) : (l.length == 0) = l.isEmpty := by
  cases l <;> rfl

theorem isEmpty_append_singleton (l : List String) (x : String) :
    (l ++ [x]).isEmpty = false := by
  cases l <;> rfl

theorem isEmpty_false_of_ne_nil (l : List String) (h : l ≠ []) :
    l.isEmpty = false := by
  cases l with
  | nil => exact absurd rfl h
  | cons a t => rfl

theorem flatMap_nil_of_all {α : Type} (l : List α) (p : α → Bool)
    (g : α → List String) (hg : ∀ x, p x = true → g x = [])
    (h : l.all p = true) : l.flatMap g = [] := by
  induction l with
  | nil => rfl
  | cons a t ih =>
    rw [List.all_cons, Bool.and_eq_true] at h
    simp [List.flatMap_cons, hg a h.1, ih h.2]

theorem errorsOf_nil_of_allRequired (env : Env)
    (h : allRequiredPresent env = true) : errorsOf env = [] := by
  simp only [allRequiredPresent, Bool.and_eq_true] at h
  obtain ⟨⟨⟨⟨⟨h1, h2⟩, h3⟩, h4⟩, h5⟩, h6⟩ := h
  have e1 : structureErrorsOf env = [] :=
    flatMap_nil_of_all _ env.pathExists _ (fun d hd => by simp [hd]) h1
  have e2 : crateErrorsOf env = [] := by
    refine flatMap_nil_of_all _
      (fun c => env.pathExists ("crates/" ++ c ++ "/Cargo.toml") &&
        env.pathExists ("crates/" ++ c ++ "/src/lib.rs")) _ ?_ h2
    intro c hc
    rw [Bool.and_eq_true] at hc
    simp [hc.1, hc.2]
  have e3 : examplesErrorsOf env = [] :=
    flatMap_nil_of_all _ (fun e => env.pathExists ("examples/" ++ e)) _
      (fun e he => by simp [he]) h3
  have e4 : workspaceErrorsOf env = [] := by
    unfold workspaceErrorsOf
    rw [h4, if_pos rfl]
    exact flatMap_nil_of_all _
      (fun m => strContains (env.readFile "Cargo.toml") m) _
      (fun m hm => by simp [hm]) h5
  have e5 : ciErrorsOf env = [] := by
    unfold ciErrorsOf
    rw [h6, if_pos rfl]
  unfold errorsOf
  rw [e1, e2, e3, e4, e5]
  rfl

/-! ## The claims -/

/-- C1: when the egg root exists (as it always does when the script runs,
since it is the directory containing the script itself), the process exit
code is exactly 1 if and only if the errors list is non-empty after all
checks have run, and exactly 0 if and only if it is empty, regardless of
warnings. -/
theorem claim1_exit_code (env : Env) (h : env.rootExists = true) :
    (mainExitCode env = 1 ↔ (finalState env).errors ≠ []) ∧
    (mainExitCode env = 0 ↔ (finalState env).errors = []) := by
  have hsnd : (run_all_validations env EggValidator.init).2 =
      print_report (finalState env) := rfl
  unfold mainExitCode
  rw [h, hsnd]
  unfold print_report
  cases he : (finalState env).errors with
  | nil => simp [he]
  | cons a t => simp [he]

/-- Witness for C1 at a concrete environment with everything present: exit
code 0 and empty errors. -/
theorem claim1_exit_code_witness :
    envAllGood.rootExists = true ∧
    ((mainExitCode envAllGood = 1 ↔ (finalState envAllGood).errors ≠ []) ∧
     (mainExitCode envAllGood = 0 ↔ (finalState envAllGood).errors = [])) :=
  ⟨rfl, claim1_exit_code envAllGood rfl⟩

/-- C2 is refuted: with the `tests` directory missing, `validate_structure`
records an error; the subsequent `validate_crate_files` call appends no
error entry of its own, yet returns `False`, because every check returns
`len(self.errors) == 0` over the cumulative errors list rather than over the
entries it recorded itself. -/
theorem claim2_counterexample :
    ((validate_crate_files envMissingTests
        (validate_structure envMissingTests EggValidator.init).1).1.errors =
      (validate_structure envMissingTests EggValidator.init).1.errors) ∧
    (validate_crate_files envMissingTests
        (validate_structure envMissingTests EggValidator.init).1).2 = false := by
  constructor
  · rfl
  · rfl

/-- C2 (amended): `validate_structure`, `validate_crate_files`,
`validate_examples`, `validate_workspace_config` and `validate_ci_workflow`
return `True` exactly when the validator's cumulative errors list is empty
after the check, so an error recorded by an earlier check makes them return
`False` even when they record no error themselves; `validate_docker_config`
and `validate_documentation` always return `True`; `check_cargo_build`
returns `False` exactly when the subprocess completed with a non-zero exit
status, even though it records no error. -/
theorem claim2_amended_return_values (env : Env) (v : EggValidator) :
    (validate_structure env v).2 = (validate_structure env v).1.errors.isEmpty ∧
    (validate_crate_files env v).2 = (validate_crate_files env v).1.errors.isEmpty ∧
    (validate_examples env v).2 = (validate_examples env v).1.errors.isEmpty ∧
    (validate_workspace_config env v).2 =
      (validate_workspace_config env v).1.errors.isEmpty ∧
    (validate_ci_workflow env v).2 = (validate_ci_workflow env v).1.errors.isEmpty ∧
    (validate_docker_config env v).2 = true ∧
    (validate_documentation env v).2 = true ∧
    (check_cargo_build env v).2 = !cargoRunFailed env.cargo := by
  refine ⟨length_beq_isEmpty _, length_beq_isEmpty _, length_beq_isEmpty _, ?_, ?_,
    rfl, rfl, ?_⟩
  · unfold validate_workspace_config
    cases hc : env.pathExists "Cargo.toml" with
    | false =>
      simp only [Bool.false_eq_true, if_false]
      rw [isEmpty_append_singleton]
    | true =>
      simp only [if_true]
      exact length_beq_isEmpty _
  · unfold validate_ci_workflow
    cases hc : env.pathExists ".github/workflows/ci.yml" with
    | false => exact length_beq_isEmpty _
    | true => exact length_beq_isEmpty _
  · unfold check_cargo_build cargoRunFailed
    cases env.cargo with
    | completed rc stderr => cases h : rc == 0 <;> simp [h]
    | fileNotFound => rfl
    | timeoutExpired => rfl
    | otherException msg => rfl

/-- C3: whenever the cargo subprocess fails in any way (non-zero exit, tool
not found, timeout, or any other exception), `check_cargo_build` leaves the
errors and successes lists unchanged and appends exactly one warning entry,
so this check alone can never cause the overall validation to fail. -/
theorem claim3_build_check_only_warns (env : Env) (v : EggValidator)
    (h : cargoFailed env.cargo = true) :
    (check_cargo_build env v).1.errors = v.errors ∧
    (check_cargo_build env v).1.successes = v.successes ∧
    ∃ w, (check_cargo_build env v).1.warnings = v.warnings ++ [w] := by
  cases hc : env.cargo with
  | completed rc stderr =>
    have h2 := h
    rw [hc] at h2
    simp only [cargoFailed] at h2
    have hrc : (rc == 0) = false := by
      cases hr : rc == 0
      · rfl
      · rw [hr] at h2
        exact absurd h2 (by decide)
    have hgoal : check_cargo_build env v =
        ({ v with warnings :=
            v.warnings ++ ["⚠ Cargo check failed: " ++ stderr.take 200] }, false) := by
      unfold check_cargo_build
      rw [hc]
      simp [hrc]
    rw [hgoal]
    exact ⟨rfl, rfl, _, rfl⟩
  | fileNotFound =>
    unfold check_cargo_build
    rw [hc]
    exact ⟨rfl, rfl, _, rfl⟩
  | timeoutExpired =>
    unfold check_cargo_build
    rw [hc]
    exact ⟨rfl, rfl, _, rfl⟩
  | otherException msg =>
    unfold check_cargo_build
    rw [hc]
    exact ⟨rfl, rfl, _, rfl⟩

/-- Witness for C3 at a concrete environment in which the cargo subprocess
times out. -/
theorem claim3_build_check_only_warns_witness :
    cargoFailed envTimeout.cargo = true ∧
    ((check_cargo_build envTimeout EggValidator.init).1.errors =
      EggValidator.init.errors ∧
     (check_cargo_build envTimeout EggValidator.init).1.successes =
      EggValidator.init.successes ∧
     ∃ w, (check_cargo_build envTimeout EggValidator.init).1.warnings =
      EggValidator.init.warnings ++ [w]) :=
  ⟨rfl, claim3_build_check_only_warns envTimeout EggValidator.init rfl⟩

/-- C4: the report verdict is a total function of the errors and warnings
lists: FAILED when errors is non-empty, PASSED-WITH-WARNINGS when errors is
empty and warnings is non-empty, PASSED when both are empty; and
`print_report` returns `False` exactly in the FAILED case. -/
theorem claim4_report_verdict (v : EggValidator) :
    (report_verdict v = Verdict.failed ↔ v.errors ≠ []) ∧
    (report_verdict v = Verdict.passedWithWarnings ↔
      v.errors = [] ∧ v.warnings ≠ []) ∧
    (report_verdict v = Verdict.passed ↔ v.errors = [] ∧ v.warnings = []) ∧
    (print_report v = false ↔ report_verdict v = Verdict.failed) := by
  unfold report_verdict print_report
  cases he : v.errors <;> cases hw : v.warnings <;> simp

/-- C5: for every environment in which a required directory is absent, the
specific missing-directory error string naming that directory appears in the
errors list after all checks, the verdict is FAILED, and
`run_all_validations` returns `False`. -/
theorem claim5_missing_dir (env : Env) (d : String)
    (hd : d ∈ required_dirs) (h : env.pathExists d = false) :
    ("✗ Missing directory: " ++ d) ∈ (finalState env).errors ∧
    report_verdict (finalState env) = Verdict.failed ∧
    (run_all_validations env EggValidator.init).2 = false := by
  have hmem : ("✗ Missing directory: " ++ d) ∈ structureErrorsOf env := by
    unfold structureErrorsOf
    refine List.mem_flatMap.mpr ⟨d, hd, ?_⟩
    rw [h]
    simp
  have hmem2 : ("✗ Missing directory: " ++ d) ∈ (finalState env).errors := by
    rw [finalState_eq]
    show _ ∈ errorsOf env
    unfold errorsOf
    exact List.mem_append_left _ (List.mem_append_left _ (List.mem_append_left _
      (List.mem_append_left _ hmem)))
  have hie : (finalState env).errors.isEmpty = false :=
    isEmpty_false_of_ne_nil _ (List.ne_nil_of_mem hmem2)
  refine ⟨hmem2, ?_, ?_⟩
  · unfold report_verdict
    rw [hie]
    rfl
  · rw [run_all_snd]
    show print_report (finalState env) = false
    unfold print_report
    rw [hie]
    rfl

/-- Witness for C5 at a concrete environment in which exactly the required
directory `tests` is absent and everything else is present. -/
theorem claim5_missing_dir_witness :
    "tests" ∈ required_dirs ∧
    envMissingTests.pathExists "tests" = false ∧
    (("✗ Missing directory: " ++ "tests") ∈ (finalState envMissingTests).errors ∧
     report_verdict (finalState envMissingTests) = Verdict.failed ∧
     (run_all_validations envMissingTests EggValidator.init).2 = false) :=
  ⟨by decide, by decide,
   claim5_missing_dir envMissingTests "tests" (by decide) (by decide)⟩

/-- C6: when everything required is present but an optional Docker auxiliary
file is absent, its absence appears as the corresponding warning entry, no
error entry exists at all, and the verdict is PASSED-WITH-WARNINGS, not
FAILED. -/
theorem claim6_optional_docker (env : Env) (f : String)
    (hall : allRequiredPresent env = true)
    (hf : f ∈ dockerFiles) (hmiss : env.pathExists f = false) :
    (finalState env).errors = [] ∧
    ("⚠ " ++ f ++ " missing") ∈ (finalState env).warnings ∧
    report_verdict (finalState env) = Verdict.passedWithWarnings := by
  have herr : (finalState env).errors = [] := by
    rw [finalState_eq]
    exact errorsOf_nil_of_allRequired env hall
  have hdw : ("⚠ " ++ f ++ " missing") ∈ dockerWarningsOf env := by
    simp only [dockerFiles, List.mem_cons, List.not_mem_nil, or_false] at hf
    unfold dockerWarningsOf
    rcases hf with rfl | rfl | rfl
    · rw [hmiss]
      simp
    · rw [hmiss]
      simp
    · rw [hmiss]
      simp
  have hwmem : ("⚠ " ++ f ++ " missing") ∈ (finalState env).warnings := by
    rw [finalState_eq]
    show _ ∈ warningsOf env
    unfold warningsOf
    exact List.mem_append_left _ (List.mem_append_left _
      (List.mem_append_left _ hdw))
  have hiw : (finalState env).warnings.isEmpty = false :=
    isEmpty_false_of_ne_nil _ (List.ne_nil_of_mem hwmem)
  refine ⟨herr, hwmem, ?_⟩
  unfold report_verdict
  rw [herr, hiw]
  rfl

/-- Witness for C6 at a concrete environment in which only the optional
`Dockerfile` is absent. -/
theorem claim6_optional_docker_witness :
    allRequiredPresent envNoDocker = true ∧
    "Dockerfile" ∈ dockerFiles ∧
    envNoDocker.pathExists "Dockerfile" = false ∧
    ((finalState envNoDocker).errors = [] ∧
     ("⚠ " ++ "Dockerfile" ++ " missing") ∈ (finalState envNoDocker).warnings ∧
     report_verdict (finalState envNoDocker) = Verdict.passedWithWarnings) :=
  ⟨by decide, by decide, by decide,
   claim6_optional_docker envNoDocker "Dockerfile" (by decide) (by decide)
     (by decide)⟩

/-- C7: in `validate_ci_workflow`, absence of the workflow file appends the
CI-workflow-missing error and touches no warnings (so no job check runs),
whereas when the file exists no error is appended and every required job
name absent from its contents appends the corresponding warning. -/
theorem claim7_ci_severity (env : Env) (v : EggValidator) :
    (env.pathExists ".github/workflows/ci.yml" = false →
      (validate_ci_workflow env v).1.errors = v.errors ++ ["✗ CI workflow missing"] ∧
      (validate_ci_workflow env v).1.warnings = v.warnings) ∧
    (env.pathExists ".github/workflows/ci.yml" = true →
      (validate_ci_workflow env v).1.errors = v.errors ∧
      ∀ job, job ∈ required_jobs →
        strContains (env.readFile ".github/workflows/ci.yml") (job ++ ":") = false →
        ("⚠ CI job missing: " ++ job) ∈ (validate_ci_workflow env v).1.warnings) := by
  constructor
  · intro h
    rw [validate_ci_workflow_delta]
    unfold ciErrorsOf ciWarningsOf
    rw [h]
    simp
  · intro h
    rw [validate_ci_workflow_delta]
    unfold ciErrorsOf ciWarningsOf
    rw [h]
    refine ⟨by simp, ?_⟩
    intro job hj hmiss
    show ("⚠ CI job missing: " ++ job) ∈ v.warnings ++ _
    refine List.mem_append_right _ ?_
    simp only [if_pos rfl]
    refine List.mem_flatMap.mpr ⟨job, hj, ?_⟩
    rw [hmiss]
    simp

/-- Witness for C7 at two concrete environments: one without the workflow
file, one whose workflow file defines no jobs. -/
theorem claim7_ci_severity_witness :
    ((validate_ci_workflow envNoCi EggValidator.init).1.errors =
      EggValidator.init.errors ++ ["✗ CI workflow missing"]) ∧
    (("⚠ CI job missing: " ++ "test") ∈
      (validate_ci_workflow envCiNoJobs EggValidator.init).1.warnings) :=
  ⟨((claim7_ci_severity envNoCi EggValidator.init).1 (by decide)).1,
   ((claim7_ci_severity envCiNoJobs EggValidator.init).2 (by decide)).2 "test"
     (by decide) (by decide)⟩

/-- C8: every check is append-only: the input lists are prefixes of the
output lists; no entry is removed, reordered, or modified. -/
theorem claim8_append_only (env : Env) (v : EggValidator) :
    prefixTriple v (validate_structure env v).1 ∧
    prefixTriple v (validate_crate_files env v).1 ∧
    prefixTriple v (validate_examples env v).1 ∧
    prefixTriple v (validate_workspace_config env v).1 ∧
    prefixTriple v (validate_docker_config env v).1 ∧
    prefixTriple v (validate_ci_workflow env v).1 ∧
    prefixTriple v (validate_documentation env v).1 ∧
    prefixTriple v (check_cargo_build env v).1 := by
  refine ⟨?_, ?_, ?_, ?_, ?_, ?_, ?_, ?_⟩
  · rw [validate_structure_delta]
    exact ⟨⟨_, rfl⟩, ⟨[], List.append_nil _⟩, ⟨_, rfl⟩⟩
  · rw [validate_crate_files_delta]
    exact ⟨⟨_, rfl⟩, ⟨[], List.append_nil _⟩, ⟨_, rfl⟩⟩
  · rw [validate_examples_delta]
    exact ⟨⟨_, rfl⟩, ⟨[], List.append_nil _⟩, ⟨_, rfl⟩⟩
  · rw [validate_workspace_config_delta]
    exact ⟨⟨_, rfl⟩, ⟨[], List.append_nil _⟩, ⟨_, rfl⟩⟩
  · rw [validate_docker_config_delta]
    exact ⟨⟨[], List.append_nil _⟩, ⟨_, rfl⟩, ⟨_, rfl⟩⟩
  · rw [validate_ci_workflow_delta]
    exact ⟨⟨_, rfl⟩, ⟨_, rfl⟩, ⟨_, rfl⟩⟩
  · rw [validate_documentation_delta]
    exact ⟨⟨[], List.append_nil _⟩, ⟨_, rfl⟩, ⟨_, rfl⟩⟩
  · rw [check_cargo_build_delta]
    exact ⟨⟨[], List.append_nil _⟩, ⟨_, rfl⟩, ⟨_, rfl⟩⟩

/-- C9: a full run from a fresh validator depends only on the filesystem and
subprocess observations: two environments with identical `pathExists`,
`readFile` and cargo observations (an unchanged tree) produce identical
errors, warnings and successes lists and the same return value, so re-running
carries no hidden state between runs. -/
theorem claim9_rerun_deterministic (env1 env2 : Env)
    (hp : ∀ p, env1.pathExists p = env2.pathExists p)
    (hr : ∀ p, env1.readFile p = env2.readFile p)
    (hc : env1.cargo = env2.cargo) :
    (run_all_validations env1 EggValidator.init).1.errors =
      (run_all_validations env2 EggValidator.init).1.errors ∧
    (run_all_validations env1 EggValidator.init).1.warnings =
      (run_all_validations env2 EggValidator.init).1.warnings ∧
    (run_all_validations env1 EggValidator.init).1.successes =
      (run_all_validations env2 EggValidator.init).1.successes ∧
    (run_all_validations env1 EggValidator.init).2 =
      (run_all_validations env2 EggValidator.init).2 := by
  have h1 : env1.pathExists = env2.pathExists := funext hp
  have h2 : env1.readFile = env2.readFile := funext hr
  have hstate : finalState env1 = finalState env2 := by
    rw [finalState_eq, finalState_eq]
    unfold errorsOf warningsOf successesOf structureErrorsOf structureSuccessesOf
      crateErrorsOf crateSuccessesOf examplesErrorsOf examplesSuccessesOf
      workspaceErrorsOf workspaceSuccessesOf dockerWarningsOf dockerSuccessesOf
      ciErrorsOf ciWarningsOf ciSuccessesOf docsWarningsOf docsSuccessesOf
      cargoWarningsOf cargoSuccessesOf
    rw [h1, h2, hc]
  refine ⟨?_, ?_, ?_, ?_⟩
  · show (finalState env1).errors = (finalState env2).errors
    rw [hstate]
  · show (finalState env1).warnings = (finalState env2).warnings
    rw [hstate]
  · show (finalState env1).successes = (finalState env2).successes
    rw [hstate]
  · rw [run_all_snd, run_all_snd]
    show print_report (finalState env1) = print_report (finalState env2)
    rw [hstate]

/-- Witness for C9 at two concrete environments agreeing on every
observation (they differ only in the unobserved root-existence flag). -/
theorem claim9_rerun_deterministic_witness :
    (∀ p, envDetA.pathExists p = envDetB.pathExists p) ∧
    (∀ p, envDetA.readFile p = envDetB.readFile p) ∧
    envDetA.cargo = envDetB.cargo ∧
    ((run_all_validations envDetA EggValidator.init).1.errors =
       (run_all_validations envDetB EggValidator.init).1.errors ∧
     (run_all_validations envDetA EggValidator.init).1.warnings =
       (run_all_validations envDetB EggValidator.init).1.warnings ∧
     (run_all_validations envDetA EggValidator.init).1.successes =
       (run_all_validations envDetB EggValidator.init).1.successes ∧
     (run_all_validations envDetA EggValidator.init).2 =
       (run_all_validations envDetB EggValidator.init).2) :=
  ⟨fun _ => rfl, fun _ => rfl, rfl,
   claim9_rerun_deterministic envDetA envDetB (fun _ => rfl) (fun _ => rfl) rfl⟩

/-- C10: when the root `Cargo.toml` does not exist,
`validate_workspace_config` appends exactly the missing-root-file error,
leaves warnings and successes untouched (so no per-member check runs), and
returns `False` immediately. -/
theorem claim10_workspace_early_return (env : Env) (v : EggValidator)
    (h : env.pathExists "Cargo.toml" = false) :
    (validate_workspace_config env v).1.errors =
      v.errors ++ ["✗ Root Cargo.toml missing"] ∧
    (validate_workspace_config env v).1.warnings = v.warnings ∧
    (validate_workspace_config env v).1.successes = v.successes ∧
    (validate_workspace_config env v).2 = false := by
  unfold validate_workspace_config
  rw [h]
  exact ⟨rfl, rfl, rfl, rfl⟩

/-- Witness for C10 at a concrete environment without a root `Cargo.toml`. -/
theorem claim10_workspace_early_return_witness :
    envNoCargoToml.pathExists "Cargo.toml" = false ∧
    ((validate_workspace_config envNoCargoToml EggValidator.init).1.errors =
      EggValidator.init.errors ++ ["✗ Root Cargo.toml missing"] ∧
     (validate_workspace_config envNoCargoToml EggValidator.init).1.warnings =
      EggValidator.init.warnings ∧
     (validate_workspace_config envNoCargoToml EggValidator.init).1.successes =
      EggValidator.init.successes ∧
     (validate_workspace_config envNoCargoToml EggValidator.init).2 = false) :=
  ⟨by decide,
   claim10_workspace_early_return envNoCargoToml EggValidator.init (by decide)⟩

end EggValidation
